import Mathlib

/-!
Verification of the request-orchestration layer of the Nano Banana API
service (src/api/main.py): prompt composition, the generation client
call_gemini, the batch variation loops of create_ads and generate_scenes,
and the module-level name environment that the second block of handlers
runs in.

Strings are modelled with Lean String; the Python method str.strip is
embedded as pyStrip over the underlying character list, and Python
truthiness of optional strings as pyTruthy.
-/

/-- Embedding of Python str.strip with no argument: remove leading and
trailing whitespace characters. -/
def pyStrip (s : String) : String :=
  ⟨((s.data.dropWhile Char.isWhitespace).reverse.dropWhile Char.isWhitespace).reverse⟩

/-- Python truthiness of an Optional[str] value: None and the empty
string are falsy, every other string is truthy. -/
def pyTruthy : Option String → Bool
  | none => false
  | some s => !s.isEmpty

/-- The constant API_URL of src/api/main.py line 11. -/
def API_URL : String :=
  "https://generativelanguage.googleapis.com/v1beta/models/gemini-2.0-flash-exp:generateContent"

/-- The PROMPTS table of src/api/main.py lines 13-18, as an association
list in source order. -/
def PROMPTS : List (String × String) :=
  [("generate", "Generate a high-quality image based on this prompt:"),
   ("edit", "Edit this image according to the instructions:"),
   ("virtual_try_on", "Create a realistic virtual try-on combining these images:"),
   ("restore", "Restore this old or damaged image:")]

/-- Lookup of PROMPTS[k]: the value at the first matching key. -/
def promptsGet (k : String) : Option String :=
  (PROMPTS.find? (fun p => p.1 == k)).map (fun p => p.2)

/-- An encoded uploaded asset: base64 data plus declared media type, the
pair produced by encode_image (src/api/main.py lines 20-23). -/
structure EncodedAsset where
  data : String
  mime : String
deriving DecidableEq, Repr

/-- One part of the upstream payload: either a text part or an
inlineData part carrying base64 data and a media type. -/
inductive PromptPart where
  | text (s : String)
  | inlineData (data : String) (mimeType : String)
deriving DecidableEq, Repr

/-- The parts list built by call_gemini lines 26-29: the text part first,
then one inlineData part per image in order. -/
def buildParts (prompt : String) (images : List EncodedAsset) : List PromptPart :=
  PromptPart.text prompt :: images.map (fun img => PromptPart.inlineData img.data img.mime)

/-- The request URL built at line 35: the API key is appended as the
query parameter key. -/
def buildUrl (apiKey : String) : String :=
  API_URL ++ "?key=" ++ apiKey

/-- The request headers passed at line 37: only Content-Type; the API
key does not appear in any header. -/
def requestHeaders : List (String × String) :=
  [("Content-Type", "application/json")]

/-- The outbound request call_gemini submits: URL, headers and payload
parts. -/
structure GeminiRequest where
  url : String
  headers : List (String × String)
  payload : List PromptPart
deriving DecidableEq, Repr

def geminiRequest (apiKey prompt : String) (images : List EncodedAsset) : GeminiRequest :=
  { url := buildUrl apiKey
    headers := requestHeaders
    payload := buildParts prompt images }

/-- One part of the upstream response envelope. inlineData, when
present, carries the data string and an optional declared mimeType
(absent mimeType defaults to image/png at line 52). -/
structure RespPart where
  inlineData : Option (String × Option String)
deriving DecidableEq, Repr

/-- One candidate of the response: the list obtained by the chain
candidates[0].get(content, ...).get(parts, []) at line 49, with every
missing level collapsing to the empty list. -/
structure Candidate where
  parts : List RespPart
deriving DecidableEq, Repr

/-- An upstream HTTP response: status code, raw body text, and the
parsed candidates field (missing field collapses to the empty list,
line 45). -/
structure HTTPResponse where
  status : Nat
  body : String
  candidates : List Candidate
deriving DecidableEq, Repr

/-- The observable outcome of the single requests.post call inside the
try block of call_gemini: either the post or the response parsing raised
a requests.RequestException (line 56), some other exception was raised,
for example a JSON decode failure (line 58), or an HTTP response came
back. -/
inductive Outcome where
  | requestException (msg : String)
  | otherException (msg : String)
  | response (r : HTTPResponse)
deriving DecidableEq, Repr

/-- The scan of lines 50-54: walk the parts of the first candidate in
order; the first part that has an inlineData field yields the success
pair (its data, its mimeType defaulted to image/png); if none has one,
return the failure pair with reason No image in response. -/
def scanParts : List RespPart → Option String × String
  | [] => (none, "No image in response")
  | p :: rest =>
    match p.inlineData with
    | some (d, m) => (some d, m.getD "image/png")
    | none => scanParts rest

/-- The result interpretation of call_gemini, lines 41-59: non-200
status returns failure with reason API Error: followed by the status
code; 200 with no candidates returns failure No response from API;
otherwise the first candidate is scanned; exceptions are converted to
failure pairs. The first component is the image data on success and
none on failure; the second is the media type on success and the reason
on failure. -/
def callGeminiResult : Outcome → Option String × String
  | .requestException e => (none, "Request failed: " ++ e)
  | .otherException e => (none, "Error: " ++ e)
  | .response r =>
    if r.status ≠ 200 then
      (none, "API Error: " ++ toString r.status)
    else
      match r.candidates with
      | [] => (none, "No response from API")
      | c :: _ => scanParts c.parts

/-- Embedding of call_gemini, lines 25-59. The body contains a single
requests.post call and no loop, so the upstream oracle is consulted
exactly once; the second component of the result counts the upstream
calls performed by this invocation. -/
def callGemini (apiKey prompt : String) (images : List EncodedAsset)
    (upstream : GeminiRequest → Outcome) : (Option String × String) × Nat :=
  (callGeminiResult (upstream (geminiRequest apiKey prompt images)), 1)

/-! ## Prompt composition (first handler block, lines 71-131) -/

/-- The composed prompt of the generate handler, line 76: the canned
generate instruction, a space, then the user prompt; no strip is
applied. -/
def generate_full_prompt (prompt : String) : String :=
  (promptsGet "generate").getD "" ++ " " ++ prompt

/-- The composed prompt of the edit handler, line 89: the canned edit
instruction, a space, then the user prompt; no strip is applied. -/
def edit_full_prompt (prompt : String) : String :=
  (promptsGet "edit").getD "" ++ " " ++ prompt

/-- The composed prompt of the virtual_try_on handler, line 112: canned
instruction, space, user prompt, with strip applied to the whole. -/
def virtual_try_on_full_prompt (prompt : String) : String :=
  pyStrip ((promptsGet "virtual_try_on").getD "" ++ " " ++ prompt)

/-- The composed prompt of the restore_old_image handler, line 125:
canned instruction, space, user prompt, with strip applied to the
whole. -/
def restore_full_prompt (prompt : String) : String :=
  pyStrip ((promptsGet "restore").getD "" ++ " " ++ prompt)

/-! ## Single-image handler responses (first handler block) -/

/-- Response of a single-image handler after call_gemini returns. -/
inductive HandlerResponse where
  | ok (fields : List (String × String))
  | err (status : Nat) (msg : String)
deriving DecidableEq, Repr

/-- The response shaping of generate_image, lines 79-81: when img_data
is truthy return the image with the constant mime image/png, otherwise
a 500 error carrying the second tuple component. -/
def generate_image_response (res : Option String × String) : HandlerResponse :=
  if pyTruthy res.1 then
    HandlerResponse.ok [("image", res.1.getD ""), ("mime", "image/png")]
  else
    HandlerResponse.err 500 res.2

/-- The response shaping of edit_image, lines 93-95: same shape as
generate_image. -/
def edit_image_response (res : Option String × String) : HandlerResponse :=
  if pyTruthy res.1 then
    HandlerResponse.ok [("image", res.1.getD ""), ("mime", "image/png")]
  else
    HandlerResponse.err 500 res.2

/-- The response shaping of virtual_try_on, lines 115-117: same shape as
generate_image. -/
def virtual_try_on_response (res : Option String × String) : HandlerResponse :=
  if pyTruthy res.1 then
    HandlerResponse.ok [("image", res.1.getD ""), ("mime", "image/png")]
  else
    HandlerResponse.err 500 res.2

/-- The response shaping of restore_image, lines 129-131: same shape as
generate_image. -/
def restore_image_response (res : Option String × String) : HandlerResponse :=
  if pyTruthy res.1 then
    HandlerResponse.ok [("image", res.1.getD ""), ("mime", "image/png")]
  else
    HandlerResponse.err 500 res.2

/-! ## Variant counts of the batch handlers (second handler block) -/

/-- MAX_AD_VARIATIONS, line 226. -/
def MAX_AD_VARIATIONS : Int := 3

/-- Python or between an Optional[int] and a default: None and 0 are
falsy and yield the default, every other integer yields itself. This is
the expression variations or MAX_AD_VARIATIONS at line 238. -/
def pyOrInt (v : Option Int) (d : Int) : Int :=
  match v with
  | none => d
  | some n => if n = 0 then d else n

/-- The variant target of create_ads, lines 238-239:
target = variations or MAX_AD_VARIATIONS, then target = max(1, min(target, 3)). -/
def create_ads_target (variations : Option Int) : Int :=
  max 1 (min (pyOrInt variations MAX_AD_VARIATIONS) 3)

/-- The variant count of generate_scenes, lines 281 and 289: target is
the constant 3 and the loop runs over range(min(target, 3)); the
variations form field is ignored. -/
def generate_scenes_target (variations : Option Int) : Int :=
  min 3 3

/-- The clamp the specification describes: requestedCount clamped to the
nearest bound of the interval from 1 to 3. Stated from the words of the
spec for comparison with the two target definitions above. -/
def specClamp (requestedCount : Int) : Int :=
  max 1 (min requestedCount 3)

/-! ## The batch variation loop (lines 246-255 and 288-299) -/

/-- The accumulation loop shared by create_ads and generate_scenes: for
i in range(target), call the generation client with the prompt for
variant i and the one fixed asset list; append each truthy result to the
output list and skip failures. The client is a parameter because
call_nano_banana is not defined in the module; the loop body is taken
verbatim from the source. -/
def batchLoop (client : String → List EncodedAsset → Option (String × String))
    (promptOf : Nat → String) (assets : List EncodedAsset) (target : Nat) :
    List (String × String) :=
  (List.range target).foldl
    (fun results i =>
      match client (promptOf i) assets with
      | some r => results ++ [r]
      | none => results) []

/-- The HTTP status of the batch response: JSONResponse with no status
argument, lines 255 and 299, defaults to 200. -/
def batchResponseStatus : Nat := 200

/-- The hint table of create_ads, lines 241-245. -/
def base_hints_ads : List String :=
  ["lifestyle angle", "dramatic lighting", "portrait social feed style"]

/-- The hint table of generate_scenes, lines 283-287. -/
def base_hints_scenes : List String :=
  ["wide cinematic extension", "dawn atmosphere", "midday clarity"]

/-- The per-variant prompt of create_ads, lines 248-251: system prompt,
the Variation label with the hint at index i mod 3, stripped; the user
prompt, when truthy, is appended with the User label. -/
def create_ads_variant_prompt (systemPrompt userPrompt : String) (i : Nat) : String :=
  let hint := base_hints_ads.getD (i % base_hints_ads.length) ""
  let base := pyStrip (systemPrompt ++ " Variation " ++ toString (i + 1) ++ ": " ++ hint ++ ".")
  if userPrompt.isEmpty then base else base ++ " User: " ++ pyStrip userPrompt

/-! ## The module name environment (for the second handler block) -/

/-- The names defined at module level of src/api/main.py once the module
has fully loaded: the imported names of lines 1-6, the module constants
and the def statements. Later definitions of the same name rebind it, so
each name appears once. uvicorn, random, b64encode_file and
call_nano_banana are absent. -/
def moduleNames : List String :=
  ["base64", "requests", "FastAPI", "UploadFile", "File", "Form", "HTTPException",
   "CORSMiddleware", "JSONResponse", "HTMLResponse", "List", "Optional",
   "app", "API_URL", "PROMPTS", "encode_image", "call_gemini", "home",
   "generate_image", "edit_image", "virtual_try_on", "restore_image",
   "handler", "read_root", "MAX_AD_VARIATIONS", "MAX_SCENE_VARIATIONS",
   "create_ads", "merge_images", "generate_scenes", "restore_old_image"]

/-- The keys present in the PROMPTS table. -/
def promptKeys : List String := PROMPTS.map (fun p => p.1)

/-- One primitive event of a handler body, in program order: the
presence check of api_key (raising HTTPException 400 when it fails), a
lookup of a module-level name (raising NameError when the name is not
bound), a subscript of PROMPTS (raising KeyError when the key is
absent), or a call to the upstream generation API. -/
inductive Ev where
  | check400 (ok : Bool)
  | name (n : String)
  | key (k : String)
  | upstream
deriving DecidableEq, Repr

/-- Run a handler event script: stop at the first raising event and
report it; count the upstream calls performed before that point. The
first component is the number of upstream calls made, the second the
raised error when one was raised. -/
def runEvents : List Ev → Nat × Option String
  | [] => (0, none)
  | Ev.check400 ok :: rest =>
    if ok then runEvents rest else (0, some "HTTPException 400")
  | Ev.name n :: rest =>
    if moduleNames.contains n then runEvents rest
    else (0, some ("NameError: name " ++ n ++ " is not defined"))
  | Ev.key k :: rest =>
    if promptKeys.contains k then runEvents rest
    else (0, some ("KeyError: " ++ k))
  | Ev.upstream :: rest =>
    let r := runEvents rest
    (r.1 + 1, r.2)

/-- The event script of the create_ads handler, lines 229-255: the
api_key check, one b64encode_file lookup per file of the two-element
list at line 235, the MAX_AD_VARIATIONS and PROMPTS lookups with the
create_ads subscript, then per loop iteration the call_nano_banana
lookup followed by the upstream call it would perform. Builtin lookups
such as max, min and range always succeed and are not recorded. -/
def create_ads_events (apiKeyOk : Bool) (target : Nat) : List Ev :=
  Ev.check400 apiKeyOk ::
  [Ev.name "b64encode_file", Ev.name "b64encode_file",
   Ev.name "MAX_AD_VARIATIONS", Ev.name "PROMPTS", Ev.key "create_ads"] ++
  (List.range target).flatMap (fun _ => [Ev.name "call_nano_banana", Ev.upstream])

/-- The event script of the merge_images handler, lines 257-273: the
api_key check, one b64encode_file lookup per file of files[:5], then the
random and PROMPTS lookups with the merge_images subscript, then the
call_nano_banana lookup and its upstream call. -/
def merge_images_events (apiKeyOk : Bool) (nFiles : Nat) : List Ev :=
  Ev.check400 apiKeyOk ::
  List.replicate (min nFiles 5) (Ev.name "b64encode_file") ++
  [Ev.name "random", Ev.name "PROMPTS", Ev.key "merge_images",
   Ev.name "call_nano_banana", Ev.upstream]

/-- The event script of the generate_scenes handler, lines 275-299: the
api_key check, the b64encode_file lookup for the scene file, the PROMPTS
lookup with the generate_scenes subscript, then three loop iterations of
the call_nano_banana lookup and its upstream call. -/
def generate_scenes_events (apiKeyOk : Bool) : List Ev :=
  Ev.check400 apiKeyOk ::
  [Ev.name "b64encode_file", Ev.name "PROMPTS", Ev.key "generate_scenes"] ++
  (List.range 3).flatMap (fun _ => [Ev.name "call_nano_banana", Ev.upstream])

/-! ## Helper lemmas -/

lemma runEvents_check_false (rest : List Ev) :
    runEvents (Ev.check400 false :: rest) = (0, some "HTTPException 400") := rfl

lemma runEvents_check_true (rest : List Ev) :
    runEvents (Ev.check400 true :: rest) = runEvents rest := rfl

lemma runEvents_b64 (rest : List Ev) :
    runEvents (Ev.name "b64encode_file" :: rest)
      = (0, some "NameError: name b64encode_file is not defined") := rfl

lemma runEvents_random (rest : List Ev) :
    runEvents (Ev.name "random" :: rest)
      = (0, some "NameError: name random is not defined") := rfl

lemma foldl_append_filterMap
    (client : String → List EncodedAsset → Option (String × String))
    (promptOf : Nat → String) (assets : List EncodedAsset) (l : List Nat) :
    ∀ acc : List (String × String),
      l.foldl (fun results i =>
        match client (promptOf i) assets with
        | some r => results ++ [r]
        | none => results) acc
        = acc ++ l.filterMap (fun i => client (promptOf i) assets) := by
  induction l with
  | nil => intro acc; simp
  | cons x xs ih =>
    intro acc
    cases hx : client (promptOf x) assets <;>
      simp [List.foldl_cons, hx, List.filterMap_cons, ih]

lemma scanParts_eq_findSome (ps : List RespPart) :
    scanParts ps
      = match ps.findSome? (fun p => p.inlineData) with
        | some (d, m) => (some d, m.getD "image/png")
        | none => (none, "No image in response") := by
  induction ps with
  | nil => rfl
  | cons p rest ih =>
    cases hp : p.inlineData with
    | none => simp [scanParts, List.findSome?_cons, hp, ih]
    | some dm =>
      obtain ⟨d, m⟩ := dm
      simp [scanParts, List.findSome?_cons, hp]

/-! ## Claims -/

/-- C1, counterexample: against an upstream double that always returns
the rate-limited status 429, call_gemini performs exactly one upstream
call, not the four calls the claim requires for three retries, and the
failure reason is the formatted status line, not a backoff exhaustion:
there is no retry loop in the source. -/
theorem c1_counterexample :
    callGemini "k" "p" []
      (fun _ => Outcome.response { status := 429, body := "rate limited", candidates := [] })
      = ((none, "API Error: 429"), 1) ∧ (1 : Nat) ≠ 3 + 1 := by
  exact ⟨rfl, by decide⟩

/-- C1, amended: call_gemini performs no retry at all: every invocation
makes exactly one upstream call, and a rate-limited (429) response
yields an immediate failure with reason API Error: 429. -/
theorem c1_no_retry (apiKey prompt : String) (images : List EncodedAsset)
    (upstream : GeminiRequest → Outcome) (body : String) (cands : List Candidate) :
    (callGemini apiKey prompt images upstream).2 = 1 ∧
    callGemini apiKey prompt images
      (fun _ => Outcome.response { status := 429, body := body, candidates := cands })
      = ((none, "API Error: 429"), 1) := by
  refine ⟨rfl, ?_⟩
  simp only [callGemini, callGeminiResult]
  norm_num
  decide

/-- C2: for every input (api_key present or not, any number of uploaded
files, any loop target), the create_ads, merge_images and
generate_scenes handlers raise before performing any upstream call:
the names b64encode_file, call_nano_banana and random are unbound in the
module and the PROMPTS keys create_ads, merge_images and generate_scenes
are absent, so no input produces a success or batch result. -/
theorem c2_second_block_handlers_error (apiKeyOk : Bool) (target nFiles : Nat) :
    ((runEvents (create_ads_events apiKeyOk target)).2.isSome ∧
      (runEvents (create_ads_events apiKeyOk target)).1 = 0) ∧
    ((runEvents (merge_images_events apiKeyOk nFiles)).2.isSome ∧
      (runEvents (merge_images_events apiKeyOk nFiles)).1 = 0) ∧
    ((runEvents (generate_scenes_events apiKeyOk)).2.isSome ∧
      (runEvents (generate_scenes_events apiKeyOk)).1 = 0) := by
  cases apiKeyOk with
  | false =>
    refine ⟨⟨?_, ?_⟩, ⟨?_, ?_⟩, ⟨?_, ?_⟩⟩ <;>
      simp [create_ads_events, merge_images_events, generate_scenes_events,
        runEvents_check_false]
  | true =>
    refine ⟨⟨rfl, rfl⟩, ⟨?_, ?_⟩, ⟨rfl, rfl⟩⟩ <;>
    · rcases Nat.eq_zero_or_pos (min nFiles 5) with h | h
      · simp [merge_images_events, h, runEvents_check_true, runEvents_random]
      · obtain ⟨k, hk⟩ := Nat.exists_eq_succ_of_ne_zero (Nat.pos_iff_ne_zero.mp h)
        simp [merge_images_events, hk, List.replicate_succ, runEvents_check_true,
          runEvents_b64]

/-- C3, counterexample: with requestedCount 0, the claim requires a
clamp to the nearest bound 1, but create_ads treats 0 as falsy and
substitutes the default 3, and generate_scenes ignores the requested
count entirely and also uses 3. -/
theorem c3_counterexample :
    create_ads_target (some 0) = 3 ∧ specClamp 0 = 1 ∧
    create_ads_target (some 0) ≠ specClamp 0 ∧
    generate_scenes_target (some 0) = 3 ∧
    generate_scenes_target (some 0) ≠ specClamp 0 := by
  decide

/-- C3, amended: the create_ads target always lies in the interval from
1 to 3; an unset or zero requestedCount yields the default 3; a nonzero
requestedCount is clamped to the nearest bound of the interval; the
generate_scenes count is the constant 3 regardless of requestedCount. -/
theorem c3_clamp_amended :
    (∀ v : Option Int, 1 ≤ create_ads_target v ∧ create_ads_target v ≤ 3) ∧
    create_ads_target none = 3 ∧
    create_ads_target (some 0) = 3 ∧
    (∀ n : Int, n ≠ 0 → create_ads_target (some n) = specClamp n) ∧
    (∀ v : Option Int, generate_scenes_target v = 3) := by
  refine ⟨?_, by decide, by decide, ?_, fun _ => rfl⟩
  · intro v
    rcases v with _ | n
    · decide
    · by_cases hn : n = 0
      · subst hn; decide
      · simp only [create_ads_target, pyOrInt, MAX_AD_VARIATIONS, hn, if_false]
        omega
  · intro n hn
    simp only [create_ads_target, pyOrInt, MAX_AD_VARIATIONS, hn, if_false, specClamp]

/-- C3, witness. -/
theorem c3_clamp_amended_witness : create_ads_target (some 7) = specClamp 7 :=
  c3_clamp_amended.2.2.2.1 7 (by decide)

/-- C4: the batch loop shared by create_ads and generate_scenes returns
exactly the successful client results, in the order of the variant
indices 0 to target-1, each call receiving the same fixed asset list;
failures are skipped silently, the result may be shorter than target or
empty, and the batch response status is always 200. -/
theorem c4_batch_successes_in_order
    (client : String → List EncodedAsset → Option (String × String))
    (promptOf : Nat → String) (assets : List EncodedAsset) (target : Nat) :
    batchLoop client promptOf assets target
      = (List.range target).filterMap (fun i => client (promptOf i) assets) ∧
    batchResponseStatus = 200 := by
  refine ⟨?_, rfl⟩
  simpa [batchLoop] using
    foldl_append_filterMap client promptOf assets (List.range target) []

/-- C5, counterexample: a 500 response with body quota exceeded yields
the failure reason API Error: 500; the raw response body is discarded,
not surfaced as the claim requires. -/
theorem c5_counterexample :
    callGeminiResult
      (Outcome.response { status := 500, body := "quota exceeded", candidates := [] })
      = (none, "API Error: 500") ∧
    ("API Error: 500" : String) ≠ "quota exceeded" := by
  exact ⟨rfl, by decide⟩

/-- C5, amended: every non-200 status, rate-limited included, produces
an immediate failure whose reason is API Error: followed by the status
code; the response body does not appear in the result. -/
theorem c5_non_success_immediate_failure (r : HTTPResponse) (h : r.status ≠ 200) :
    callGeminiResult (Outcome.response r) = (none, "API Error: " ++ toString r.status) := by
  simp [callGeminiResult, h]

/-- C5, witness. -/
theorem c5_non_success_immediate_failure_witness :
    callGeminiResult (Outcome.response { status := 503, body := "x", candidates := [] })
      = (none, "API Error: " ++ toString (503 : Nat)) :=
  c5_non_success_immediate_failure { status := 503, body := "x", candidates := [] } (by decide)

/-- C6, counterexample: the generate handler applies no strip: with the
empty user prompt the composed instruction ends with a space, so the
final composed string is not trimmed. -/
theorem c6_counterexample :
    generate_full_prompt "" = "Generate a high-quality image based on this prompt: " ∧
    pyStrip (generate_full_prompt "") ≠ generate_full_prompt "" := by
  exact ⟨rfl, by decide⟩

/-- C6, amended: the generate and edit handlers compose canned text,
one space, then the user text verbatim with no trimming, so the
instruction begins with the canned system text and ends with the user
text exactly as supplied; only virtual_try_on and restore_old_image
strip the composed string. -/
theorem c6_composition_amended (p : String) :
    generate_full_prompt p
      = "Generate a high-quality image based on this prompt:" ++ " " ++ p ∧
    (generate_full_prompt p).data
      = "Generate a high-quality image based on this prompt:".data ++ (' ' :: p.data) ∧
    edit_full_prompt p = "Edit this image according to the instructions:" ++ " " ++ p ∧
    virtual_try_on_full_prompt p
      = pyStrip ("Create a realistic virtual try-on combining these images:" ++ " " ++ p) ∧
    restore_full_prompt p = pyStrip ("Restore this old or damaged image:" ++ " " ++ p) := by
  refine ⟨rfl, ?_, rfl, rfl, rfl⟩
  simp [generate_full_prompt, promptsGet, PROMPTS, String.data_append]

/-- C7: on a 200 response, no candidate yields the failure No response
from API; otherwise the parts of the first candidate are scanned in
order and the first part carrying inlineData yields the success pair of
its data and its declared media type (defaulted to image/png when
absent); when no part carries inlineData the failure is No image in
response. -/
theorem c7_success_parse (r : HTTPResponse) (h : r.status = 200) :
    (r.candidates = [] →
      callGeminiResult (Outcome.response r) = (none, "No response from API")) ∧
    (∀ c rest, r.candidates = c :: rest →
      callGeminiResult (Outcome.response r)
        = match c.parts.findSome? (fun p => p.inlineData) with
          | some (d, m) => (some d, m.getD "image/png")
          | none => (none, "No image in response")) := by
  constructor
  · intro hc; simp [callGeminiResult, h, hc]
  · intro c rest hc
    simp [callGeminiResult, h, hc, scanParts_eq_findSome]

/-- C7, witness. -/
theorem c7_success_parse_witness :
    callGeminiResult (Outcome.response
      { status := 200, body := "",
        candidates :=
          [{ parts := [{ inlineData := none }, { inlineData := some ("IMG64", none) }] }] })
      = (some "IMG64", "image/png") := by
  have h := (c7_success_parse
    { status := 200, body := "",
      candidates :=
        [{ parts := [{ inlineData := none }, { inlineData := some ("IMG64", none) }] }] }
    rfl).2
    { parts := [{ inlineData := none }, { inlineData := some ("IMG64", none) }] } [] rfl
  simpa using h

/-- C8: the upstream request built by call_gemini carries, in order,
exactly one text part followed by one inlineData part per encoded asset
in asset order; its URL places the API key in the query parameter key
appended to API_URL; its header list is the constant Content-Type entry,
independent of the key; and callGemini submits exactly this request to
the upstream. -/
theorem c8_payload_and_auth (apiKey prompt : String) (images : List EncodedAsset)
    (upstream : GeminiRequest → Outcome) :
    (geminiRequest apiKey prompt images).payload
      = PromptPart.text prompt
        :: images.map (fun img => PromptPart.inlineData img.data img.mime) ∧
    (geminiRequest apiKey prompt images).url = API_URL ++ "?key=" ++ apiKey ∧
    (geminiRequest apiKey prompt images).headers = [("Content-Type", "application/json")] ∧
    callGemini apiKey prompt images upstream
      = (callGeminiResult (upstream (geminiRequest apiKey prompt images)), 1) :=
  ⟨rfl, rfl, rfl, rfl⟩

/-- C9: request exceptions (timeouts, connection errors) and every other
exception (for example a JSON decode failure) are converted into failure
pairs carrying a diagnostic reason with a distinguishing Request failed
or Error tag, and for every upstream outcome the client returns exactly
one of a success pair or a failure reason: the result interpretation is
a total function on outcomes. -/
theorem c9_exceptions_to_failure (e : String) (o : Outcome) :
    callGeminiResult (Outcome.requestException e) = (none, "Request failed: " ++ e) ∧
    callGeminiResult (Outcome.otherException e) = (none, "Error: " ++ e) ∧
    ((∃ d m, callGeminiResult o = (some d, m)) ∨
      (∃ reason, callGeminiResult o = (none, reason))) := by
  refine ⟨rfl, rfl, ?_⟩
  rcases hres : callGeminiResult o with ⟨fst, snd⟩
  cases fst with
  | none => exact Or.inr ⟨snd, rfl⟩
  | some d => exact Or.inl ⟨d, snd, rfl⟩

/-- C10: when call_gemini succeeds with a truthy image, all four
single-image handlers of the first block return the constant mime
image/png, whatever media type the client extracted from the upstream
response. -/
theorem c10_constant_png_mime (d m : String) (h : d ≠ "") :
    generate_image_response (some d, m)
      = HandlerResponse.ok [("image", d), ("mime", "image/png")] ∧
    edit_image_response (some d, m)
      = HandlerResponse.ok [("image", d), ("mime", "image/png")] ∧
    virtual_try_on_response (some d, m)
      = HandlerResponse.ok [("image", d), ("mime", "image/png")] ∧
    restore_image_response (some d, m)
      = HandlerResponse.ok [("image", d), ("mime", "image/png")] := by
  have ht : pyTruthy (some d) = true := by
    simp only [pyTruthy, Bool.not_eq_true', ← Bool.not_eq_true, String.isEmpty_iff]
    exact h
  refine ⟨?_, ?_, ?_, ?_⟩ <;>
    simp [generate_image_response, edit_image_response, virtual_try_on_response,
      restore_image_response, ht]

/-- C10, witness. -/
theorem c10_constant_png_mime_witness :
    generate_image_response (some "DATA", "image/jpeg")
      = HandlerResponse.ok [("image", "DATA"), ("mime", "image/png")] :=
  (c10_constant_png_mime "DATA" "image/jpeg" (by decide)).1
